import Mathlib

/-!
Shallow embedding of the simulation core of `Solarfilter.py`
(solar water distillation toy simulation).

Python floats are modelled as exact rationals.  Numeric literals from the
source are written as exact fractions (0.01 = 1/100, 0.05 = 1/20, and so on).
Presentation-layer code (labels, messages, scheduling) is out of scope and
not modelled; the simulation state and its step function are modelled in
full, field by field, after the source.
-/

/-- A water contaminant, after the `Contaminant` class: a name, an initial
concentration, a mutable current concentration, and a display unit. -/
structure Contaminant where
  name : String
  initial_level : ℚ
  current_level : ℚ
  unit : String
deriving DecidableEq

/-- `Contaminant.reduce`: multiplies the current level by
`1 - percentage/100`, snaps to 0 when the result is below 0.01, and returns
the updated contaminant together with the nominal amount removed
(`percentage * initial_level / 100`). -/
def Contaminant.reduce (c : Contaminant) (percentage : ℚ) : Contaminant × ℚ :=
  let reduction_factor := 1 - percentage / 100
  let lvl := c.current_level * reduction_factor
  let lvl2 := if lvl < 1/100 then 0 else lvl
  ({ c with current_level := lvl2 }, percentage * c.initial_level / 100)

/-- A collection of contaminants, after the `WaterQuality` class.  The
Python dict (unique keys, insertion order) is modelled as an ordered
association list of contaminants keyed by their names. -/
structure WaterQuality where
  description : String
  contaminants : List Contaminant
deriving DecidableEq

/-- `WaterQuality.get_contaminant_level`: level of a named contaminant, 0
when absent (the source synthesizes a transient zero-level contaminant). -/
def WaterQuality.get_contaminant_level (wq : WaterQuality) (nm : String) : ℚ :=
  match wq.contaminants.find? (fun c => c.name = nm) with
  | some c => c.current_level
  | none => 0

/-- `WaterQuality.apply_removal`: for every (name, efficiency) pair of the
removal mapping, reduce the contaminant of that name when present; unknown
names are no-ops. -/
def WaterQuality.apply_removal (wq : WaterQuality) (effs : List (String × ℚ)) :
    WaterQuality :=
  effs.foldl
    (fun w q =>
      { w with contaminants :=
          w.contaminants.map (fun c => if c.name = q.1 then (c.reduce q.2).1 else c) })
    wq

/-- `WaterQuality.copy`: deep snapshot; fresh contaminants with identical
name, initial level, current level and unit, description tagged. -/
def WaterQuality.copy (wq : WaterQuality) : WaterQuality :=
  { description := wq.description ++ " (Copy)"
    contaminants := wq.contaminants.map
      (fun c => { name := c.name, initial_level := c.initial_level,
                  current_level := c.current_level, unit := c.unit }) }

/-- A filtration material record, after the `FiltrationMaterial` class. -/
structure FiltrationMaterial where
  name : String
  description : String
  efficiency : List (String × ℚ)
  effect_on_flow : ℚ
  draw_moisture : Bool
deriving DecidableEq

/-- The charcoal (activated carbon) filter constant. -/
def charcoal_filter : FiltrationMaterial :=
  { name := "Charcoal (Activated Carbon)"
    description := "Excellent for adsorbing organic chemicals, odors, and chlorine."
    efficiency := [("Organic Chemicals", 80), ("Chlorine", 95), ("Heavy Metals", 20),
                   ("Suspended Solids", 10), ("Bacteria", 5)]
    effect_on_flow := 7/10
    draw_moisture := false }

/-- The gravel filter constant. -/
def gravel_filter : FiltrationMaterial :=
  { name := "Gravel"
    description := "Removes large suspended solids and provides drainage."
    efficiency := [("Suspended Solids", 70), ("Organic Chemicals", 0), ("Bacteria", 0)]
    effect_on_flow := 12/10
    draw_moisture := false }

/-- The fine sand filter constant; the only layer that draws ground moisture. -/
def sand_filter : FiltrationMaterial :=
  { name := "Sand (Fine)"
    description := "Removes finer suspended solids and allows for capillary action."
    efficiency := [("Suspended Solids", 85), ("Organic Chemicals", 5), ("Bacteria", 10)]
    effect_on_flow := 8/10
    draw_moisture := true }

/-- The distillation reference table constant (percentage tuning only; not a
member of the filtration layer list). -/
def distillation_process : FiltrationMaterial :=
  { name := "Distillation (Evaporation/Condensation)"
    description := "Removes virtually all non-volatile impurities."
    efficiency := [("Suspended Solids", 999/10), ("Organic Chemicals", 95),
                   ("Heavy Metals", 995/10), ("Salts", 999/10), ("Bacteria", 999/10),
                   ("Viruses", 999/10), ("Protozoa", 999/10), ("Chlorine", 90)]
    effect_on_flow := 1
    draw_moisture := false }

/-- The ordered filtration stack: gravel, then sand, then charcoal. -/
def filtration_layers : List FiltrationMaterial :=
  [gravel_filter, sand_filter, charcoal_filter]

/-- The whole mutable simulation state of `SolarDistillationSimulator`
(UI widgets omitted). -/
structure SimState where
  temperature : ℚ
  time_step : ℕ
  sim_running : Bool
  raw : WaterQuality
  filtered : WaterQuality
  distilled : WaterQuality
  ground_moisture_level : ℚ
deriving DecidableEq

/-- Two-argument `min` on rationals, written with an explicit test so that
the kernel evaluates it (Python builtin `min`). -/
def rmin (a b : ℚ) : ℚ := if a ≤ b then a else b

/-- `np.clip(x, lo, hi)` on rationals: values outside the interval are
clipped to the interval edges. -/
def clip (x lo hi : ℚ) : ℚ := if hi < x then hi else if x < lo then lo else x

/-- The initial bad water of the source: six contaminants at their fixed
constants. -/
def init_bad_water : WaterQuality :=
  { description := "Raw Water"
    contaminants :=
      [ { name := "Suspended Solids", initial_level := 500, current_level := 500, unit := "mg/L" },
        { name := "Organic Chemicals", initial_level := 100, current_level := 100, unit := "ug/L" },
        { name := "Heavy Metals", initial_level := 50, current_level := 50, unit := "ug/L" },
        { name := "Salts", initial_level := 1000, current_level := 1000, unit := "mg/L" },
        { name := "Bacteria", initial_level := 10000, current_level := 10000, unit := "CFU/mL" },
        { name := "Chlorine", initial_level := 3/2, current_level := 3/2, unit := "mg/L" } ] }

/-- The state built by the constructor: temperature 40, tick 0, not yet
running, raw water initialised, empty filtered and distilled snapshots,
ground moisture 100. -/
def initState : SimState :=
  { temperature := 40
    time_step := 0
    sim_running := false
    raw := init_bad_water
    filtered := { description := "Pre-Distillation Filtered Water", contaminants := [] }
    distilled := { description := "Final Distilled Water", contaminants := [] }
    ground_moisture_level := 100 }

/-- `start_simulation`: reset tick, arm the running flag, reinitialise raw
water, fresh empty filtered and distilled snapshots.  The source does not
touch `ground_moisture_level` or `temperature` here. -/
def start_simulation (s : SimState) : SimState :=
  { s with
    time_step := 0
    sim_running := true
    raw := init_bad_water
    filtered := { description := "Pre-Distillation Filtered Water", contaminants := [] }
    distilled := { description := "Final Distilled Water", contaminants := [] } }

/-- Capillary re-contamination of one contaminant for a given draw amount:
current level rises by `initial * 0.01 * (draw/0.05)`, clamped by the
initial level. -/
def capillaryUpdateContaminant (draw_amount : ℚ) (c : Contaminant) : Contaminant :=
  let lvl := rmin c.initial_level
    (c.current_level + c.initial_level * (1/100) * (draw_amount / (1/20)))
  { c with current_level := lvl }

/-- One iteration of the capillary loop of `simulate_step` for one material,
acting on the pair (ground moisture, raw water): when the material draws
moisture and moisture remains, compute `0.05 * effect_on_flow`, clamp it to
the remaining moisture, subtract it, and re-contaminate every raw
contaminant. -/
def capillaryStepMaterial (m : FiltrationMaterial) (st : ℚ × WaterQuality) :
    ℚ × WaterQuality :=
  if m.draw_moisture = true ∧ 0 < st.1 then
    let draw0 := (1/20) * m.effect_on_flow
    let draw := if st.1 - draw0 < 0 then st.1 else draw0
    (st.1 - draw,
     { st.2 with contaminants := st.2.contaminants.map (capillaryUpdateContaminant draw) })
  else st

/-- The whole capillary phase: the loop over the filtration layers. -/
def capillaryPhase (layers : List FiltrationMaterial) (ground : ℚ)
    (raw : WaterQuality) : ℚ × WaterQuality :=
  layers.foldl (fun st m => capillaryStepMaterial m st) (ground, raw)

/-- `evaporation_eff = clip(0.1 + (temperature - 25)*0.02, 0.01, 1.0)`. -/
def evaporation_eff (t : ℚ) : ℚ := clip (1/10 + (t - 25) * (2/100)) (1/100) 1

/-- `condensation_eff = clip(0.6 + (temperature - 25)*0.01, 0.01, 1.0)`. -/
def condensation_eff (t : ℚ) : ℚ := clip (6/10 + (t - 25) * (1/100)) (1/100) 1

/-- The distillation removal mapping built by `simulate_step`: every entry
of the reference table scaled by `(evaporation_eff + condensation_eff)/2`
and then by 100. -/
def distillation_removal_dict (t : ℚ) : List (String × ℚ) :=
  distillation_process.efficiency.map
    (fun q => (q.1, q.2 * (evaporation_eff t + condensation_eff t) / 2 * 100))

/-- `calculate_clarity`: weighted clarity from residual suspended solids and
organic chemicals of the distilled snapshot against the raw maxima, each
ratio guarded to 0 when its denominator is not positive, clipped to [0,1]. -/
def SimState.calculate_clarity (s : SimState) : ℚ :=
  let max_solids := s.raw.get_contaminant_level "Suspended Solids"
  let max_organics := s.raw.get_contaminant_level "Organic Chemicals"
  let current_solids := s.distilled.get_contaminant_level "Suspended Solids"
  let current_organics := s.distilled.get_contaminant_level "Organic Chemicals"
  let solids_clarity := 1 - (if 0 < max_solids then current_solids / max_solids else 0)
  let organics_clarity := 1 - (if 0 < max_organics then current_organics / max_organics else 0)
  clip (solids_clarity * (6/10) + organics_clarity * (4/10)) 0 1

/-- The state mutations a running `simulate_step` performs before its
convergence check: tick advance, capillary phase on the ground reservoir and
raw water, the filtration fold on a copy of raw water, and the distillation
pass on a copy of the filtered water. -/
def stepCore (s : SimState) : SimState :=
  { s with
    time_step := s.time_step + 1
    ground_moisture_level := (capillaryPhase filtration_layers s.ground_moisture_level s.raw).1
    raw := (capillaryPhase filtration_layers s.ground_moisture_level s.raw).2
    filtered :=
      filtration_layers.foldl (fun w m => w.apply_removal m.efficiency)
        (capillaryPhase filtration_layers s.ground_moisture_level s.raw).2.copy
    distilled :=
      (filtration_layers.foldl (fun w m => w.apply_removal m.efficiency)
        (capillaryPhase filtration_layers s.ground_moisture_level s.raw).2.copy).copy.apply_removal
        (distillation_removal_dict s.temperature) }

/-- `simulate_step`: one tick.  A no-op reporting False when not running;
otherwise: apply `stepCore` and converge (running := false, report False)
exactly when every raw contaminant is below 1 percent of its initial level
in the distilled snapshot and clarity is at least 0.95. -/
def simulate_step (s : SimState) : SimState × Bool :=
  if s.sim_running = true then
    if (∀ c ∈ (stepCore s).raw.contaminants,
          (stepCore s).distilled.get_contaminant_level c.name < c.initial_level * (1/100))
        ∧ 19/20 ≤ (stepCore s).calculate_clarity then
      ({ stepCore s with sim_running := false }, false)
    else
      (stepCore s, true)
  else (s, false)

/-- Iterated stepping: `stepN s n` is the state and last returned flag after
`n` calls of `simulate_step` starting from `s` (flag `true` at 0 calls). -/
def stepN (s : SimState) : ℕ → SimState × Bool
  | 0 => (s, true)
  | n + 1 => simulate_step (stepN s n).1

/-- The state right after the driver arms the simulation. -/
def started : SimState := start_simulation initState

/-- The explicit value of the state after the first `simulate_step` from
`started` (checked below in `step1_eval`): the capillary draw takes 0.04
from the ground reservoir and re-adds nothing visible (raw water is already
at its initial levels), filtration leaves the six levels shown, and the
distillation pass snaps every distilled level to 0. -/
def step1State : SimState :=
  { temperature := 40
    time_step := 1
    sim_running := false
    raw := { description := "Raw Water"
             contaminants :=
              [ { name := "Suspended Solids", initial_level := 500, current_level := 500, unit := "mg/L" },
                { name := "Organic Chemicals", initial_level := 100, current_level := 100, unit := "ug/L" },
                { name := "Heavy Metals", initial_level := 50, current_level := 50, unit := "ug/L" },
                { name := "Salts", initial_level := 1000, current_level := 1000, unit := "mg/L" },
                { name := "Bacteria", initial_level := 10000, current_level := 10000, unit := "CFU/mL" },
                { name := "Chlorine", initial_level := 3/2, current_level := 3/2, unit := "mg/L" } ] }
    filtered := { description := "Raw Water (Copy)"
                  contaminants :=
                   [ { name := "Suspended Solids", initial_level := 500, current_level := 81/4, unit := "mg/L" },
                     { name := "Organic Chemicals", initial_level := 100, current_level := 19, unit := "ug/L" },
                     { name := "Heavy Metals", initial_level := 50, current_level := 40, unit := "ug/L" },
                     { name := "Salts", initial_level := 1000, current_level := 1000, unit := "mg/L" },
                     { name := "Bacteria", initial_level := 10000, current_level := 8550, unit := "CFU/mL" },
                     { name := "Chlorine", initial_level := 3/2, current_level := 3/40, unit := "mg/L" } ] }
    distilled := { description := "Raw Water (Copy) (Copy)"
                   contaminants :=
                    [ { name := "Suspended Solids", initial_level := 500, current_level := 0, unit := "mg/L" },
                      { name := "Organic Chemicals", initial_level := 100, current_level := 0, unit := "ug/L" },
                      { name := "Heavy Metals", initial_level := 50, current_level := 0, unit := "ug/L" },
                      { name := "Salts", initial_level := 1000, current_level := 0, unit := "mg/L" },
                      { name := "Bacteria", initial_level := 10000, current_level := 0, unit := "CFU/mL" },
                      { name := "Chlorine", initial_level := 3/2, current_level := 0, unit := "mg/L" } ] }
    ground_moisture_level := 2499/25 }

/-- The per-contaminant range invariant: the current level is nonnegative
and bounded by the initial level. -/
def contOK (c : Contaminant) : Prop :=
  0 ≤ c.current_level ∧ c.current_level ≤ c.initial_level

/-- Range invariant for a whole water-quality snapshot. -/
def WaterQuality.Inv (wq : WaterQuality) : Prop := ∀ c ∈ wq.contaminants, contOK c

/-- Engine invariant: all three owned snapshots are in range. -/
def SimState.Inv (s : SimState) : Prop := s.raw.Inv ∧ s.filtered.Inv ∧ s.distilled.Inv

/-- Modelled on the words of the specification of the clarity calculation,
for comparison with the source translation `SimState.calculate_clarity`:
solids and organics clarities are one minus the residual ratio, the ratio
term is 0 if the maximum is 0, and the weighted sum 0.6/0.4 is clamped to
[0,1]. -/
def clarity_spec (max_s max_o cur_s cur_o : ℚ) : ℚ :=
  clip ((6/10) * (1 - (if max_s = 0 then 0 else cur_s / max_s))
      + (4/10) * (1 - (if max_o = 0 then 0 else cur_o / max_o))) 0 1

/-- A state whose ground reservoir was partly consumed by a previous run. -/
def sHalf : SimState :=
  { initState with sim_running := true, ground_moisture_level := 50 }

/-- An armed state with an almost exhausted ground reservoir. -/
def sLow : SimState :=
  { initState with sim_running := true, ground_moisture_level := 1/50 }

/-- An armed state with an exhausted ground reservoir. -/
def sZero : SimState :=
  { initState with sim_running := true, ground_moisture_level := 0 }

/-- Copy descriptions, recorded as rewrite rules for evaluation. -/
theorem copy_descriptions :
    ("Raw Water" ++ " (Copy)" = "Raw Water (Copy)") ∧
    ("Raw Water (Copy)" ++ " (Copy)" = "Raw Water (Copy) (Copy)") ∧
    ("Raw Water" ++ " (Copy)" ++ " (Copy)" = "Raw Water (Copy) (Copy)") := by
  exact ⟨rfl, rfl, rfl⟩

/-- All name comparisons between the six raw-water contaminant names and the
names of the reference tables that are unequal, recorded as rewrite rules
for evaluation. -/
theorem contaminant_name_pairs :
    (("Suspended Solids" = "Organic Chemicals") = False) ∧
    (("Suspended Solids" = "Heavy Metals") = False) ∧
    (("Suspended Solids" = "Salts") = False) ∧
    (("Suspended Solids" = "Bacteria") = False) ∧
    (("Suspended Solids" = "Viruses") = False) ∧
    (("Suspended Solids" = "Protozoa") = False) ∧
    (("Suspended Solids" = "Chlorine") = False) ∧
    (("Organic Chemicals" = "Suspended Solids") = False) ∧
    (("Organic Chemicals" = "Heavy Metals") = False) ∧
    (("Organic Chemicals" = "Salts") = False) ∧
    (("Organic Chemicals" = "Bacteria") = False) ∧
    (("Organic Chemicals" = "Viruses") = False) ∧
    (("Organic Chemicals" = "Protozoa") = False) ∧
    (("Organic Chemicals" = "Chlorine") = False) ∧
    (("Heavy Metals" = "Suspended Solids") = False) ∧
    (("Heavy Metals" = "Organic Chemicals") = False) ∧
    (("Heavy Metals" = "Salts") = False) ∧
    (("Heavy Metals" = "Bacteria") = False) ∧
    (("Heavy Metals" = "Viruses") = False) ∧
    (("Heavy Metals" = "Protozoa") = False) ∧
    (("Heavy Metals" = "Chlorine") = False) ∧
    (("Salts" = "Suspended Solids") = False) ∧
    (("Salts" = "Organic Chemicals") = False) ∧
    (("Salts" = "Heavy Metals") = False) ∧
    (("Salts" = "Bacteria") = False) ∧
    (("Salts" = "Viruses") = False) ∧
    (("Salts" = "Protozoa") = False) ∧
    (("Salts" = "Chlorine") = False) ∧
    (("Bacteria" = "Suspended Solids") = False) ∧
    (("Bacteria" = "Organic Chemicals") = False) ∧
    (("Bacteria" = "Heavy Metals") = False) ∧
    (("Bacteria" = "Salts") = False) ∧
    (("Bacteria" = "Viruses") = False) ∧
    (("Bacteria" = "Protozoa") = False) ∧
    (("Bacteria" = "Chlorine") = False) ∧
    (("Chlorine" = "Suspended Solids") = False) ∧
    (("Chlorine" = "Organic Chemicals") = False) ∧
    (("Chlorine" = "Heavy Metals") = False) ∧
    (("Chlorine" = "Salts") = False) ∧
    (("Chlorine" = "Bacteria") = False) ∧
    (("Chlorine" = "Viruses") = False) ∧
    (("Chlorine" = "Protozoa") = False) := by
  simp

/-- Full evaluation of the first simulation step from the armed state. -/
theorem step1_eval : simulate_step started = (step1State, false) := by
  norm_num [step1State, simulate_step, stepCore, started, start_simulation, initState,
    init_bad_water,
    capillaryPhase, filtration_layers, capillaryStepMaterial, capillaryUpdateContaminant,
    gravel_filter, sand_filter, charcoal_filter, distillation_process,
    WaterQuality.copy, WaterQuality.apply_removal, Contaminant.reduce,
    distillation_removal_dict, evaporation_eff, condensation_eff, clip, rmin,
    SimState.calculate_clarity, WaterQuality.get_contaminant_level, List.find?,
    List.foldl, contaminant_name_pairs, copy_descriptions]

/-- The current level after one reduce call, in closed form. -/
theorem reduce_current_level (c : Contaminant) (p : ℚ) :
    (c.reduce p).1.current_level =
      if c.current_level * (1 - p / 100) < 1/100 then 0
      else c.current_level * (1 - p / 100) := rfl

/-- Reduce does not change the initial level. -/
theorem reduce_initial_level (c : Contaminant) (p : ℚ) :
    (c.reduce p).1.initial_level = c.initial_level := rfl

/-- Reduce does not change the name. -/
theorem reduce_name (c : Contaminant) (p : ℚ) :
    (c.reduce p).1.name = c.name := rfl

/-- The informational return of reduce. -/
theorem reduce_returned (c : Contaminant) (p : ℚ) :
    (c.reduce p).2 = p * c.initial_level / 100 := rfl

theorem rmin_le_left (a b : ℚ) : rmin a b ≤ a := by
  unfold rmin; split_ifs with h <;> linarith

theorem le_rmin (a b x : ℚ) (h1 : x ≤ a) (h2 : x ≤ b) : x ≤ rmin a b := by
  unfold rmin; split_ifs with h <;> linarith

theorem clip_le_hi (x lo hi : ℚ) (h : lo ≤ hi) : clip x lo hi ≤ hi := by
  unfold clip; split_ifs with h1 h2 <;> linarith

theorem lo_le_clip (x lo hi : ℚ) (h : lo ≤ hi) : lo ≤ clip x lo hi := by
  unfold clip; split_ifs with h1 h2 <;> linarith

/-- The clarity of the state after the first step is exactly 1. -/
theorem step1_clarity : step1State.calculate_clarity = 1 := by
  norm_num [step1State, SimState.calculate_clarity, WaterQuality.get_contaminant_level,
    List.find?, clip, contaminant_name_pairs]

theorem apply_removal_nil (wq : WaterQuality) : wq.apply_removal [] = wq := rfl

theorem apply_removal_cons (wq : WaterQuality) (q : String × ℚ) (qs : List (String × ℚ)) :
    wq.apply_removal (q :: qs)
      = (WaterQuality.mk wq.description
          (wq.contaminants.map
            (fun c => if c.name = q.1 then (c.reduce q.2).1 else c))).apply_removal qs := rfl

/-- The filtration fold over the three concrete layers, unrolled. -/
theorem filtration_fold_eq (w : WaterQuality) :
    filtration_layers.foldl (fun w m => w.apply_removal m.efficiency) w
      = ((w.apply_removal gravel_filter.efficiency).apply_removal
          sand_filter.efficiency).apply_removal charcoal_filter.efficiency := rfl

/-- The capillary phase over the three concrete layers, unrolled. -/
theorem capillaryPhase_eq (g : ℚ) (w : WaterQuality) :
    capillaryPhase filtration_layers g w
      = capillaryStepMaterial charcoal_filter
          (capillaryStepMaterial sand_filter
            (capillaryStepMaterial gravel_filter (g, w))) := rfl

/-- One reduce call with a nonnegative percentage keeps a contaminant in
range. -/
theorem contOK_reduce (c : Contaminant) (p : ℚ) (hp : 0 ≤ p) (h : contOK c) :
    contOK (c.reduce p).1 := by
  obtain ⟨h0, h1⟩ := h
  have hp100 : 0 ≤ p / 100 := by positivity
  have hf1 : 1 - p / 100 ≤ 1 := by linarith
  have hub : c.current_level * (1 - p / 100) ≤ c.initial_level := by
    calc c.current_level * (1 - p / 100) ≤ c.current_level * 1 :=
          mul_le_mul_of_nonneg_left hf1 h0
      _ = c.current_level := mul_one _
      _ ≤ c.initial_level := h1
  constructor
  · rw [reduce_current_level]; split_ifs with hv
    · exact le_refl 0
    · linarith [not_lt.mp hv]
  · rw [reduce_current_level, reduce_initial_level]; split_ifs with hv
    · linarith
    · exact hub

/-- Applying a removal mapping of nonnegative percentages keeps a snapshot
in range. -/
theorem Inv_apply_removal : ∀ (effs : List (String × ℚ)) (wq : WaterQuality),
    (∀ q ∈ effs, 0 ≤ q.2) → wq.Inv → (wq.apply_removal effs).Inv := by
  intro effs
  induction effs with
  | nil => intro wq _ h; exact h
  | cons q qs ih =>
    intro wq he h
    rw [apply_removal_cons]
    refine ih _ (fun r hr => he r (List.mem_cons_of_mem _ hr)) ?_
    intro c hc
    obtain ⟨c0, hc0, rfl⟩ := List.mem_map.mp hc
    by_cases hn : c0.name = q.1
    · rw [if_pos hn]; exact contOK_reduce _ _ (he q (List.mem_cons_self _ _)) (h c0 hc0)
    · rw [if_neg hn]; exact h c0 hc0

/-- Copying keeps a snapshot in range. -/
theorem Inv_copy (wq : WaterQuality) (h : wq.Inv) : wq.copy.Inv := by
  intro c hc
  obtain ⟨c0, hc0, rfl⟩ := List.mem_map.mp hc
  exact h c0 hc0

/-- Capillary re-contamination with a nonnegative draw keeps a contaminant
in range. -/
theorem contOK_capillaryUpdate (d : ℚ) (c : Contaminant) (hd : 0 ≤ d) (h : contOK c) :
    contOK (capillaryUpdateContaminant d c) := by
  obtain ⟨h0, h1⟩ := h
  have hinit : 0 ≤ c.initial_level := le_trans h0 h1
  have hamt : 0 ≤ c.initial_level * (1/100) * (d / (1/20)) := by positivity
  constructor
  · exact le_rmin _ _ _ hinit (by linarith)
  · exact rmin_le_left _ _

/-- One capillary loop iteration keeps the water snapshot in range when the
material has a nonnegative flow factor. -/
theorem Inv_capillaryStep (m : FiltrationMaterial) (st : ℚ × WaterQuality)
    (hm : 0 ≤ m.effect_on_flow) (h : st.2.Inv) : (capillaryStepMaterial m st).2.Inv := by
  unfold capillaryStepMaterial
  split_ifs with hc
  · intro c hcmem
    obtain ⟨c0, hc0, rfl⟩ := List.mem_map.mp hcmem
    refine contOK_capillaryUpdate _ _ ?_ (h c0 hc0)
    split_ifs with hg
    · exact le_of_lt hc.2
    · positivity
  · exact h

/-- One capillary loop iteration never raises the ground reservoir when the
material has a nonnegative flow factor. -/
theorem capillaryStep_ground_le (m : FiltrationMaterial) (st : ℚ × WaterQuality)
    (hm : 0 ≤ m.effect_on_flow) : (capillaryStepMaterial m st).1 ≤ st.1 := by
  unfold capillaryStepMaterial
  split_ifs with hc
  · have hd0 : 0 ≤ 1/20 * m.effect_on_flow := by positivity
    dsimp only
    split_ifs with hg
    · linarith [hc.2]
    · linarith
  · exact le_refl st.1

/-- One capillary loop iteration never makes the ground reservoir negative. -/
theorem capillaryStep_ground_nonneg (m : FiltrationMaterial) (st : ℚ × WaterQuality)
    (h0 : 0 ≤ st.1) : 0 ≤ (capillaryStepMaterial m st).1 := by
  unfold capillaryStepMaterial
  split_ifs with hc
  · dsimp only
    split_ifs with hg
    · linarith
    · linarith
  · exact h0

/-- A material that does not draw moisture leaves the capillary state alone. -/
theorem capillaryStep_no_moisture (m : FiltrationMaterial) (st : ℚ × WaterQuality)
    (h : m.draw_moisture = false) : capillaryStepMaterial m st = st := by
  unfold capillaryStepMaterial
  rw [if_neg]
  rintro ⟨hm, -⟩
  rw [h] at hm
  exact Bool.false_ne_true hm

/-- With an empty ground reservoir no capillary iteration draws anything. -/
theorem capillaryStep_ground_zero (m : FiltrationMaterial) (st : ℚ × WaterQuality)
    (h : st.1 = 0) : capillaryStepMaterial m st = st := by
  unfold capillaryStepMaterial
  rw [if_neg]
  rintro ⟨-, hpos⟩
  rw [h] at hpos
  exact lt_irrefl 0 hpos

/-- The ground reservoir after the whole capillary phase, in closed form:
only the sand layer draws; its nominal draw is 0.05*0.8 = 1/25, clamped to
the remaining moisture. -/
theorem capillaryPhase_ground (g : ℚ) (w : WaterQuality) :
    (capillaryPhase filtration_layers g w).1
      = if 0 < g then g - (if g - 1/25 < 0 then g else 1/25) else g := by
  rw [capillaryPhase_eq, capillaryStep_no_moisture gravel_filter _ rfl]
  by_cases h1 : 0 < g
  · have hsand : (capillaryStepMaterial sand_filter (g, w)).1
        = g - (if g - 1/25 < 0 then g else 1/25) := by
      unfold capillaryStepMaterial
      rw [if_pos ⟨rfl, h1⟩]
      norm_num [sand_filter]
    rw [capillaryStep_no_moisture charcoal_filter _ rfl, hsand, if_pos h1]
  · rw [if_neg h1]
    have hsand : capillaryStepMaterial sand_filter (g, w) = (g, w) := by
      unfold capillaryStepMaterial
      rw [if_neg]
      rintro ⟨-, hpos⟩
      exact h1 hpos
    rw [hsand, capillaryStep_no_moisture charcoal_filter _ rfl]

/-- The ground reservoir after one `simulate_step`, reduced to the capillary
phase. -/
theorem step_ground (s : SimState) :
    (simulate_step s).1.ground_moisture_level
      = if s.sim_running = true
        then (capillaryPhase filtration_layers s.ground_moisture_level s.raw).1
        else s.ground_moisture_level := by
  unfold simulate_step
  split_ifs with h1 h2 <;> rfl

/-- One step never raises the ground reservoir. -/
theorem ground_step_le (s : SimState) :
    (simulate_step s).1.ground_moisture_level ≤ s.ground_moisture_level := by
  rw [step_ground]
  split_ifs with h
  · rw [capillaryPhase_ground]
    split_ifs with h1 h2 <;> linarith
  · exact le_refl _

/-- One step never makes the ground reservoir negative. -/
theorem ground_step_nonneg (s : SimState) (h0 : 0 ≤ s.ground_moisture_level) :
    0 ≤ (simulate_step s).1.ground_moisture_level := by
  rw [step_ground]
  split_ifs with h
  · rw [capillaryPhase_ground]
    split_ifs with h1 h2 <;> linarith
  · exact h0

/-- The lower clip bound of the evaporation efficiency at any temperature. -/
theorem evaporation_eff_ge (t : ℚ) : 1/100 ≤ evaporation_eff t :=
  lo_le_clip _ _ _ (by norm_num)

/-- The lower clip bound of the condensation efficiency at any temperature. -/
theorem condensation_eff_ge (t : ℚ) : 1/100 ≤ condensation_eff t :=
  lo_le_clip _ _ _ (by norm_num)

/-- Every percentage of the temperature-scaled distillation removal mapping
is nonnegative, at every temperature. -/
theorem distillation_dict_nonneg (t : ℚ) :
    ∀ q ∈ distillation_removal_dict t, 0 ≤ q.2 := by
  intro q hq
  obtain ⟨p, hp, rfl⟩ := List.mem_map.mp hq
  have he : 0 ≤ p.2 := by
    simp [distillation_process] at hp
    rcases hp with rfl|rfl|rfl|rfl|rfl|rfl|rfl|rfl <;> norm_num
  have h1 := evaporation_eff_ge t
  have h2 := condensation_eff_ge t
  have : 0 ≤ evaporation_eff t + condensation_eff t := by linarith
  positivity

/-- The raw-water snapshot after the whole capillary phase stays in range. -/
theorem Inv_capillaryPhase (g : ℚ) (w : WaterQuality) (h : w.Inv) :
    (capillaryPhase filtration_layers g w).2.Inv := by
  rw [capillaryPhase_eq]
  refine Inv_capillaryStep _ _ (by norm_num [charcoal_filter]) ?_
  refine Inv_capillaryStep _ _ (by norm_num [sand_filter]) ?_
  exact Inv_capillaryStep _ _ (by norm_num [gravel_filter]) h

/-- The filtration fold keeps a snapshot in range. -/
theorem Inv_filtration (w : WaterQuality) (h : w.Inv) :
    (filtration_layers.foldl (fun w m => w.apply_removal m.efficiency) w).Inv := by
  rw [filtration_fold_eq]
  refine Inv_apply_removal _ _ (by norm_num [charcoal_filter]) ?_
  refine Inv_apply_removal _ _ (by norm_num [sand_filter]) ?_
  exact Inv_apply_removal _ _ (by norm_num [gravel_filter]) h

/-- `stepCore` keeps the whole engine state in range. -/
theorem Inv_stepCore (s : SimState) (h : s.Inv) : (stepCore s).Inv := by
  obtain ⟨hraw, hfil, hdis⟩ := h
  have h2 : (capillaryPhase filtration_layers s.ground_moisture_level s.raw).2.Inv :=
    Inv_capillaryPhase _ _ hraw
  have h3 : (filtration_layers.foldl (fun w m => w.apply_removal m.efficiency)
      (capillaryPhase filtration_layers s.ground_moisture_level s.raw).2.copy).Inv :=
    Inv_filtration _ (Inv_copy _ h2)
  exact ⟨h2, h3, Inv_apply_removal _ _ (distillation_dict_nonneg s.temperature) (Inv_copy _ h3)⟩

/-- The state returned by `simulate_step` is `stepCore s` up to the running
flag, or `s` itself when the engine is stopped. -/
theorem step_state_cases (s : SimState) :
    (simulate_step s).1 = { stepCore s with sim_running := false }
    ∨ (simulate_step s).1 = stepCore s
    ∨ (simulate_step s).1 = s := by
  unfold simulate_step
  split_ifs with h1 h2
  · exact Or.inl rfl
  · exact Or.inr (Or.inl rfl)
  · exact Or.inr (Or.inr rfl)

/-- C1 counterexample: at temperature 40 the removal mapping entry for
Suspended Solids is 99.9 * (0.40+0.75)/2 * 100 = 5744.25, not the claimed
reference_efficiency * (evaporation_eff + condensation_eff)/2 = 57.4425:
the pair the claim predicts is not in the mapping, while the 100-fold pair
is. -/
theorem C1_counterexample :
    ("Suspended Solids",
        (999/10 : ℚ) * (evaporation_eff 40 + condensation_eff 40) / 2)
      ∉ distillation_removal_dict 40
    ∧ ("Suspended Solids", (22977/4 : ℚ)) ∈ distillation_removal_dict 40 := by
  constructor
  · norm_num [distillation_removal_dict, distillation_process, evaporation_eff,
      condensation_eff, clip, contaminant_name_pairs]
  · norm_num [distillation_removal_dict, distillation_process, evaporation_eff,
      condensation_eff, clip]

/-- C1 (amended): in the distillation pass the effective removal percentage
for each contaminant of the reference table is
reference_efficiency * (evaporation_eff + condensation_eff)/2 * 100, and at
the hardcoded temperature 40 the two efficiencies are 0.40 and 0.75. -/
theorem C1_distillation_percentages (t e : ℚ) (nm : String)
    (h : (nm, e) ∈ distillation_process.efficiency) :
    (nm, e * (evaporation_eff t + condensation_eff t) / 2 * 100)
        ∈ distillation_removal_dict t
    ∧ evaporation_eff 40 = 2/5 ∧ condensation_eff 40 = 3/4 := by
  refine ⟨?_, by norm_num [evaporation_eff, clip], by norm_num [condensation_eff, clip]⟩
  exact List.mem_map_of_mem _ h

/-- Witness for C1 at temperature 40 and the Suspended Solids table entry. -/
theorem C1_witness :
    ("Suspended Solids",
        (999/10 : ℚ) * (evaporation_eff 40 + condensation_eff 40) / 2 * 100)
      ∈ distillation_removal_dict 40
    ∧ evaporation_eff 40 = 2/5 ∧ condensation_eff 40 = 3/4 :=
  C1_distillation_percentages 40 (999/10) "Suspended Solids"
    (by norm_num [distillation_process])

/-- C2: from the armed documented initial state at temperature 40, some
number of steps (here already the first) returns the do-not-continue flag,
and the clarity at that final step is at least 0.95. -/
theorem C2_finite_convergence :
    ∃ n : ℕ, 0 < n ∧ (stepN started n).2 = false
      ∧ 19/20 ≤ (stepN started n).1.calculate_clarity := by
  refine ⟨1, Nat.one_pos, ?_, ?_⟩
  · show (simulate_step started).2 = false
    rw [step1_eval]
  · show 19/20 ≤ (simulate_step started).1.calculate_clarity
    rw [step1_eval]
    show (19:ℚ)/20 ≤ step1State.calculate_clarity
    rw [step1_clarity]
    norm_num

/-- C3 counterexample: starting after a previous run that consumed half the
ground reservoir, `start_simulation` leaves the reservoir at 50, not at the
claimed initial value 100. -/
theorem C3_counterexample :
    (start_simulation sHalf).ground_moisture_level ≠ 100 := by
  norm_num [start_simulation, sHalf, initState]

/-- C3 (amended): `start_simulation` resets the tick counter, the running
flag, the raw water (exactly the six documented contaminants at their
initial levels) and the filtered and distilled snapshots, but does not touch
the ground moisture reservoir, which keeps its previous value. -/
theorem C3_start_resets (s : SimState) :
    (start_simulation s).time_step = 0
    ∧ (start_simulation s).sim_running = true
    ∧ (start_simulation s).raw = init_bad_water
    ∧ (start_simulation s).raw.contaminants.map
        (fun c => (c.name, c.initial_level, c.current_level))
      = [("Suspended Solids", 500, 500), ("Organic Chemicals", 100, 100),
         ("Heavy Metals", 50, 50), ("Salts", 1000, 1000), ("Bacteria", 10000, 10000),
         ("Chlorine", 3/2, 3/2)]
    ∧ (start_simulation s).filtered.contaminants = []
    ∧ (start_simulation s).distilled.contaminants = []
    ∧ (start_simulation s).ground_moisture_level = s.ground_moisture_level :=
  ⟨rfl, rfl, rfl, rfl, rfl, rfl, rfl⟩

/-- C4: for a percentage p in [0,100] and a contaminant at its positive
initial level L, one reduce leaves the level at L*(1-p/100), except that it
is snapped to exactly 0 when that product is below 0.01, and returns the
nominal amount p*L/100. -/
theorem C4_reduce_once (nm u : String) (L p : ℚ) (hp0 : 0 ≤ p) (hp1 : p ≤ 100)
    (hL : 0 < L) :
    (1/100 ≤ L * (1 - p / 100)
      → ((Contaminant.mk nm L L u).reduce p).1.current_level = L * (1 - p / 100))
    ∧ (L * (1 - p / 100) < 1/100
      → ((Contaminant.mk nm L L u).reduce p).1.current_level = 0)
    ∧ ((Contaminant.mk nm L L u).reduce p).2 = p * L / 100 := by
  refine ⟨?_, ?_, rfl⟩
  · intro h
    rw [reduce_current_level]
    exact if_neg (not_lt.mpr h)
  · intro h
    rw [reduce_current_level]
    exact if_pos h

/-- Witness for C4 with Salts at level 1000 and a 50 percent removal. -/
theorem C4_witness :
    ((Contaminant.mk "Salts" 1000 1000 "mg/L").reduce 50).1.current_level
        = 1000 * (1 - 50/100)
    ∧ ((Contaminant.mk "Salts" 1000 1000 "mg/L").reduce 50).2 = 50 * 1000 / 100 :=
  ⟨(C4_reduce_once "Salts" "mg/L" 1000 50 (by norm_num) (by norm_num) (by norm_num)).1
      (by norm_num),
   (C4_reduce_once "Salts" "mg/L" 1000 50 (by norm_num) (by norm_num) (by norm_num)).2.2⟩

/-- C5 counterexample: for initial level 0.02 with p1 = 60 and p2 = 0, the
first reduce gives 0.008, which the snap rule turns into 0, so the composed
level is 0 and not the claimed product 0.02*(1-60/100)*(1-0/100) = 0.008. -/
theorem C5_counterexample :
    ¬ ((((Contaminant.mk "Suspended Solids" (1/50) (1/50) "mg/L").reduce 60).1.reduce
          0).1.current_level
        = (1/50 : ℚ) * (1 - 60/100) * (1 - 0/100)) := by
  norm_num [Contaminant.reduce]

/-- C5 (amended): two successive reduces compose multiplicatively,
current = L*(1-p1/100)*(1-p2/100), provided neither the intermediate product
nor the final product falls below the 0.01 snap threshold (otherwise the
level is snapped to 0). -/
theorem C5_reduce_composes (nm u : String) (L p1 p2 : ℚ)
    (hp1 : 0 ≤ p1) (hp1' : p1 ≤ 100) (hp2 : 0 ≤ p2) (hp2' : p2 ≤ 100)
    (h1 : 1/100 ≤ L * (1 - p1 / 100))
    (h2 : 1/100 ≤ L * (1 - p1 / 100) * (1 - p2 / 100)) :
    (((Contaminant.mk nm L L u).reduce p1).1.reduce p2).1.current_level
      = L * (1 - p1 / 100) * (1 - p2 / 100) := by
  have e1 : ((Contaminant.mk nm L L u).reduce p1).1.current_level
      = L * (1 - p1 / 100) := by
    rw [reduce_current_level]
    exact if_neg (not_lt.mpr h1)
  rw [reduce_current_level, e1]
  exact if_neg (not_lt.mpr h2)

/-- Witness for C5 with level 100 and two 50 percent removals. -/
theorem C5_witness :
    (((Contaminant.mk "Suspended Solids" 100 100 "mg/L").reduce 50).1.reduce
        50).1.current_level
      = 100 * (1 - 50/100) * (1 - 50/100) :=
  C5_reduce_composes "Suspended Solids" "mg/L" 100 50 50 (by norm_num) (by norm_num)
    (by norm_num) (by norm_num) (by norm_num) (by norm_num)

/-- C6: the range invariant 0 ≤ current ≤ initial for every contaminant of
every owned snapshot holds after start and is preserved by a whole
simulation step (capillary reintroduction is clamped by the initial level,
and no engine-issued reduce drives a level negative or above its initial
value). -/
theorem C6_level_invariant (s : SimState) :
    (start_simulation s).Inv ∧ (s.Inv → (simulate_step s).1.Inv) := by
  constructor
  · refine ⟨?_, ?_, ?_⟩
    · intro c hc
      simp [start_simulation, init_bad_water] at hc
      rcases hc with rfl|rfl|rfl|rfl|rfl|rfl <;> exact ⟨by norm_num, by norm_num⟩
    · intro c hc
      simp [start_simulation] at hc
    · intro c hc
      simp [start_simulation] at hc
  · intro h
    rcases step_state_cases s with h1 | h1 | h1 <;> rw [h1]
    · exact Inv_stepCore s h
    · exact Inv_stepCore s h
    · exact h

/-- Witness for C6: the armed initial state satisfies the invariant and it
survives the first step. -/
theorem C6_witness : (simulate_step started).1.Inv :=
  (C6_level_invariant started).2 (C6_level_invariant initState).1

/-- C7: the ground reservoir never increases at a step, stays nonnegative,
is not drawn from once it is 0, is floored at exactly 0 when a running step
draws from a remainder of at most the 0.04 nominal draw, and is
non-increasing along every step sequence. -/
theorem C7_ground_moisture (s : SimState) :
    (simulate_step s).1.ground_moisture_level ≤ s.ground_moisture_level
    ∧ (0 ≤ s.ground_moisture_level → 0 ≤ (simulate_step s).1.ground_moisture_level)
    ∧ (s.ground_moisture_level = 0
        → (simulate_step s).1.ground_moisture_level = s.ground_moisture_level)
    ∧ (s.sim_running = true → 0 < s.ground_moisture_level
        → s.ground_moisture_level ≤ 1/25
        → (simulate_step s).1.ground_moisture_level = 0)
    ∧ (∀ n : ℕ, (stepN s (n+1)).1.ground_moisture_level
        ≤ (stepN s n).1.ground_moisture_level) := by
  refine ⟨ground_step_le s, ground_step_nonneg s, ?_, ?_, ?_⟩
  · intro h0
    rw [step_ground]
    split_ifs with h
    · rw [capillaryPhase_ground, h0]
      norm_num
    · rfl
  · intro hrun hpos hle
    rw [step_ground, if_pos hrun, capillaryPhase_ground, if_pos hpos]
    split_ifs with h2
    · ring
    · have he : s.ground_moisture_level = 1/25 := by linarith [not_lt.mp h2]
      rw [he]
      norm_num
  · intro n
    exact ground_step_le (stepN s n).1

/-- Witness for C7 at an armed state with a low reservoir and at an armed
state with an empty reservoir. -/
theorem C7_witness :
    (0 ≤ (simulate_step sLow).1.ground_moisture_level)
    ∧ (simulate_step sLow).1.ground_moisture_level = 0
    ∧ (simulate_step sZero).1.ground_moisture_level = sZero.ground_moisture_level :=
  ⟨(C7_ground_moisture sLow).2.1 (by norm_num [sLow, initState]),
   (C7_ground_moisture sLow).2.2.2.1 rfl (by norm_num [sLow, initState])
     (by norm_num [sLow, initState]),
   (C7_ground_moisture sZero).2.2.1 (by norm_num [sZero, initState])⟩

/-- The clarity computation with its local bindings expanded. -/
theorem calculate_clarity_eq (s : SimState) :
    s.calculate_clarity
      = clip ((1 - (if 0 < s.raw.get_contaminant_level "Suspended Solids"
              then s.distilled.get_contaminant_level "Suspended Solids"
                    / s.raw.get_contaminant_level "Suspended Solids" else 0)) * (6/10)
          + (1 - (if 0 < s.raw.get_contaminant_level "Organic Chemicals"
              then s.distilled.get_contaminant_level "Organic Chemicals"
                    / s.raw.get_contaminant_level "Organic Chemicals" else 0)) * (4/10))
          0 1 := rfl

/-- C8: the computed clarity agrees with the specified formula
clip(0.6*solids_clarity + 0.4*organics_clarity, 0, 1) with a zero raw
maximum treated as a fully clear component, and it always lies in [0,1].
The stated agreement needs the raw maxima to be nonnegative, which the
engine invariant guarantees. -/
theorem C8_clarity (s : SimState)
    (hs : 0 ≤ s.raw.get_contaminant_level "Suspended Solids")
    (ho : 0 ≤ s.raw.get_contaminant_level "Organic Chemicals") :
    s.calculate_clarity
      = clarity_spec (s.raw.get_contaminant_level "Suspended Solids")
          (s.raw.get_contaminant_level "Organic Chemicals")
          (s.distilled.get_contaminant_level "Suspended Solids")
          (s.distilled.get_contaminant_level "Organic Chemicals")
    ∧ 0 ≤ s.calculate_clarity ∧ s.calculate_clarity ≤ 1 := by
  rw [calculate_clarity_eq]
  refine ⟨?_, lo_le_clip _ _ _ (by norm_num), clip_le_hi _ _ _ (by norm_num)⟩
  unfold clarity_spec
  have h1 : (if 0 < s.raw.get_contaminant_level "Suspended Solids"
      then s.distilled.get_contaminant_level "Suspended Solids"
            / s.raw.get_contaminant_level "Suspended Solids" else 0)
      = (if s.raw.get_contaminant_level "Suspended Solids" = 0 then 0
         else s.distilled.get_contaminant_level "Suspended Solids"
            / s.raw.get_contaminant_level "Suspended Solids") := by
    rcases eq_or_lt_of_le hs with h | h
    · rw [if_neg (by rw [← h]; exact lt_irrefl 0), if_pos h.symm]
    · rw [if_pos h, if_neg (ne_of_gt h)]
  have h2 : (if 0 < s.raw.get_contaminant_level "Organic Chemicals"
      then s.distilled.get_contaminant_level "Organic Chemicals"
            / s.raw.get_contaminant_level "Organic Chemicals" else 0)
      = (if s.raw.get_contaminant_level "Organic Chemicals" = 0 then 0
         else s.distilled.get_contaminant_level "Organic Chemicals"
            / s.raw.get_contaminant_level "Organic Chemicals") := by
    rcases eq_or_lt_of_le ho with h | h
    · rw [if_neg (by rw [← h]; exact lt_irrefl 0), if_pos h.symm]
    · rw [if_pos h, if_neg (ne_of_gt h)]
  rw [h1, h2]
  congr 1
  ring

/-- Witness for C8 at the state after the first step. -/
theorem C8_witness :
    step1State.calculate_clarity
      = clarity_spec (step1State.raw.get_contaminant_level "Suspended Solids")
          (step1State.raw.get_contaminant_level "Organic Chemicals")
          (step1State.distilled.get_contaminant_level "Suspended Solids")
          (step1State.distilled.get_contaminant_level "Organic Chemicals")
    ∧ 0 ≤ step1State.calculate_clarity ∧ step1State.calculate_clarity ≤ 1 :=
  C8_clarity step1State
    (by norm_num [step1State, WaterQuality.get_contaminant_level, List.find?])
    (by norm_num [step1State, WaterQuality.get_contaminant_level, List.find?,
      contaminant_name_pairs])

/-- C9 counterexample: a negative percentage is not absorbed: reduce(-50) on
a contaminant at initial level 100 raises the current level to 150, above
its initial level, which no percentage in [0,100] could produce. -/
theorem C9_counterexample :
    (Contaminant.mk "Heavy Metals" 100 100 "ug/L").initial_level
      < ((Contaminant.mk "Heavy Metals" 100 100 "ug/L").reduce (-50)).1.current_level := by
  norm_num [Contaminant.reduce]

/-- C9 (amended): a negative percentage raises no error (reduce is total)
but it is neither clamped nor ignored: the current level is multiplied by
(1 - p/100) > 1 and strictly increases whenever the snap threshold is not
involved; it can therefore exceed the initial level. -/
theorem C9_negative_percentage (c : Contaminant) (p : ℚ) (hp : p < 0)
    (hc : 1/100 ≤ c.current_level) :
    (c.reduce p).1.current_level = c.current_level * (1 - p / 100)
    ∧ c.current_level < (c.reduce p).1.current_level := by
  have hf : 1 < 1 - p / 100 := by linarith
  have hcpos : 0 < c.current_level := by linarith
  have hgrow : c.current_level < c.current_level * (1 - p / 100) := by
    nlinarith
  have hns : ¬ (c.current_level * (1 - p / 100) < 1/100) := by
    push_neg
    linarith
  have he : (c.reduce p).1.current_level = c.current_level * (1 - p / 100) := by
    rw [reduce_current_level]
    exact if_neg hns
  exact ⟨he, by rw [he]; exact hgrow⟩

/-- Witness for C9 with Heavy Metals at level 100 and percentage -50. -/
theorem C9_witness :
    ((Contaminant.mk "Heavy Metals" 100 100 "ug/L").reduce (-50)).1.current_level
      = (Contaminant.mk "Heavy Metals" 100 100 "ug/L").current_level * (1 - (-50) / 100)
    ∧ (Contaminant.mk "Heavy Metals" 100 100 "ug/L").current_level
        < ((Contaminant.mk "Heavy Metals" 100 100 "ug/L").reduce (-50)).1.current_level :=
  C9_negative_percentage (Contaminant.mk "Heavy Metals" 100 100 "ug/L") (-50)
    (by norm_num) (by norm_num)

/-- C10: with the hardcoded temperature 40 and the documented constants the
very first step from the armed state converges: it reports False, the
clarity of the resulting state is exactly 1, every contaminant of the
distilled snapshot ends at exactly 0, and indeed every effective
distillation percentage at temperature 40 exceeds 100, so the remaining
fractions are negative and the below-0.01 guard snaps the levels to 0. -/
theorem C10_first_step_converges :
    (simulate_step started).2 = false
    ∧ (simulate_step started).1.calculate_clarity = 1
    ∧ (∀ c ∈ (simulate_step started).1.distilled.contaminants, c.current_level = 0)
    ∧ (∀ q ∈ distillation_removal_dict 40, 100 < q.2) := by
  refine ⟨by rw [step1_eval], ?_, ?_, ?_⟩
  · rw [step1_eval]
    exact step1_clarity
  · rw [step1_eval]
    intro c hc
    simp [step1State] at hc
    rcases hc with rfl|rfl|rfl|rfl|rfl|rfl <;> rfl
  · norm_num [distillation_removal_dict, distillation_process, evaporation_eff,
      condensation_eff, clip]

/-- Witness for C3 at a state left over by a previous run. -/
theorem C3_witness :
    (start_simulation sHalf).time_step = 0
    ∧ (start_simulation sHalf).sim_running = true
    ∧ (start_simulation sHalf).raw = init_bad_water
    ∧ (start_simulation sHalf).raw.contaminants.map
        (fun c => (c.name, c.initial_level, c.current_level))
      = [("Suspended Solids", 500, 500), ("Organic Chemicals", 100, 100),
         ("Heavy Metals", 50, 50), ("Salts", 1000, 1000), ("Bacteria", 10000, 10000),
         ("Chlorine", 3/2, 3/2)]
    ∧ (start_simulation sHalf).filtered.contaminants = []
    ∧ (start_simulation sHalf).distilled.contaminants = []
    ∧ (start_simulation sHalf).ground_moisture_level = sHalf.ground_moisture_level :=
  C3_start_resets sHalf
